import Mathlib

/-!
Verification of the qprompts repository core: the PR/issue reference resolver
(src/qp/utils.py), parameter schema inference (src/qp/utils.py and
src/qp/cli.py), the command tree synthesizer (src/qp/cli.py build_cli) and the
render format gate (src/qp/utils.py render_prompt_template).

Python strings are embedded as lists of characters (PyStr).  Python string
methods used by the code (strip, lstrip, split, startswith, in, isdigit,
str.join) are given explicit executable models below.  Whitespace and digit
classification are modelled over the ASCII range that the repository actually
manipulates; Python additionally classifies some further Unicode characters,
which none of the claims depend on.
-/

/-- Model of a Python string as a list of characters. -/
abbrev PyStr := List Char

/-- Model of Python whitespace for str.strip, over the ASCII range:
space, tab, newline, carriage return, vertical tab, form feed. -/
def pyIsSpace (c : Char) : Bool :=
  c = ' ' || c = '\t' || c = '\n' || c = '\r' || c = '\x0b' || c = '\x0c'

/-- Model of Python str.strip (no argument): remove leading and trailing
whitespace. -/
def pyStrip (s : PyStr) : PyStr :=
  ((s.dropWhile pyIsSpace).reverse.dropWhile pyIsSpace).reverse

/-- Model of Python str.strip with a one-character argument: remove leading
and trailing copies of that character. -/
def pyStripChar (ch : Char) (s : PyStr) : PyStr :=
  ((s.dropWhile (fun c => c = ch)).reverse.dropWhile (fun c => c = ch)).reverse

/-- Model of Python str.lstrip with a one-character argument. -/
def pyLstrip (ch : Char) (s : PyStr) : PyStr :=
  s.dropWhile (fun c => c = ch)

/-- Model of Python s.split(ch, 1) when ch occurs in s: the pair of the part
before the first occurrence and the part after it.  (When ch does not occur
the second component is []; the code only uses this after an occurrence
check.) -/
def splitFirst (ch : Char) : PyStr → PyStr × PyStr
  | [] => ([], [])
  | c :: cs =>
      if c = ch then ([], cs)
      else
        let p := splitFirst ch cs
        (c :: p.1, p.2)

/-- Model of Python s.split(ch) (split on every occurrence). -/
def splitAll (ch : Char) : PyStr → List PyStr
  | [] => [[]]
  | c :: cs =>
      let r := splitAll ch cs
      if c = ch then [] :: r
      else
        match r with
        | [] => [[c]]
        | h :: t => (c :: h) :: t

/-- Model of Python str.isdigit over the ASCII range: nonempty and composed
entirely of the decimal digits 0-9. -/
def pyIsDigitStr (s : PyStr) : Bool :=
  !s.isEmpty && s.all Char.isDigit

/-- Model of the check `value.startswith("http://") or
value.startswith("https://")` in parse_pr_reference / parse_issue_reference. -/
def hasUrlScheme (s : PyStr) : Bool :=
  List.isPrefixOf ("http://".toList) s || List.isPrefixOf ("https://".toList) s

/-- The characters of the input after the scheme marker, for inputs accepted
by hasUrlScheme. -/
def afterScheme (s : PyStr) : PyStr :=
  if List.isPrefixOf ("https://".toList) s then s.drop 8 else s.drop 7

/-- Model of urlparse(value).path for an input with an http or https scheme:
the network location extends to the first slash, question mark or hash sign
after the scheme marker, and the path then extends to the first question mark
or hash sign (query and fragment are cut off). -/
def urlPath (s : PyStr) : PyStr :=
  ((afterScheme s).dropWhile
      (fun c => !(c = '/' || c = '?' || c = '#'))).takeWhile
    (fun c => !(c = '?' || c = '#'))

/-- Model of
`[segment for segment in parsed.path.strip("/").split("/") if segment]`:
the nonempty slash-separated segments of the URL path. -/
def urlSegments (s : PyStr) : List PyStr :=
  (splitAll '/' (pyStripChar '/' (urlPath s))).filter (fun seg => !seg.isEmpty)

/-- The element segments[-2] of a Python list, as an Option. -/
def secondToLast (l : List PyStr) : Option PyStr :=
  l.get? (l.length - 2)

/-- The dataclass PullRequestReference of src/qp/utils.py. -/
structure PullRequestReference where
  repo : PyStr
  number : PyStr
deriving DecidableEq, Repr

/-- The url property of PullRequestReference. -/
def PullRequestReference.url (r : PullRequestReference) : PyStr :=
  "https://github.com/".toList ++ r.repo ++ "/pull/".toList ++ r.number

/-- The dataclass IssueReference of src/qp/utils.py. -/
structure IssueReference where
  repo : PyStr
  number : PyStr
deriving DecidableEq, Repr

/-- The url property of IssueReference. -/
def IssueReference.url (r : IssueReference) : PyStr :=
  "https://github.com/".toList ++ r.repo ++ "/issues/".toList ++ r.number

/-- Which option the failing reference was passed through (param_hint). -/
inductive ParamHint where
  | pr
  | issue
deriving DecidableEq, Repr

/-- The messages of the typer.BadParameter errors raised by
parse_pr_reference and parse_issue_reference.  Each constructor stands for
the exact message text of the source, with "pull request" or "issue" chosen
by the accompanying ParamHint:
identifierEmpty: the PR/issue identifier cannot be empty;
urlExtractFailed: unable to extract repository and PR/issue number from the
provided URL;
missingNumberAfterHash: missing pull request / issue number after the hash
sign;
provideShapes: the catch-all message enumerating the three accepted shapes
with an example (provide a number such as 768, owner/repo hash number, or a
full GitHub URL). -/
inductive BadParamMsg where
  | identifierEmpty
  | urlExtractFailed
  | missingNumberAfterHash
  | provideShapes
deriving DecidableEq, Repr

/-- A raised typer.BadParameter (the InvalidReference failure of the spec). -/
structure ParseErr where
  msg : BadParamMsg
  hint : ParamHint
deriving DecidableEq, Repr

deriving instance DecidableEq for Except

/-- The markers accepted for the PR URL form: segments[-2] in {pull, pulls}. -/
def pullMarkers : List PyStr := ["pull".toList, "pulls".toList]

/-- The markers accepted for the issue URL form:
segments[-2] in {issues, issue}. -/
def issueMarkers : List PyStr := ["issues".toList, "issue".toList]

/-- parse_pr_reference of src/qp/utils.py. -/
def parse_pr_reference (reference : PyStr) (default_repo : PyStr) :
    Except ParseErr PullRequestReference :=
  let value := pyStrip reference
  if value.isEmpty then
    .error ⟨.identifierEmpty, .pr⟩
  else if hasUrlScheme value then
    let segments := urlSegments value
    if 4 ≤ segments.length ∧ (secondToLast segments).getD [] ∈ pullMarkers then
      .ok { repo := List.intercalate ['/'] (segments.take 2),
            number := segments.getLast?.getD [] }
    else
      .error ⟨.urlExtractFailed, .pr⟩
  else if value.contains '#' then
    let parts := splitFirst '#' value
    let repoStripped := pyStrip parts.1
    let repo0 := if repoStripped.isEmpty then default_repo else repoStripped
    let repo := if repo0.contains '/' then repo0 else default_repo
    let number := pyLstrip '#' (pyStrip parts.2)
    if number.isEmpty then
      .error ⟨.missingNumberAfterHash, .pr⟩
    else
      .ok { repo := repo, number := number }
  else
    let digits := pyLstrip '#' value
    if pyIsDigitStr digits then
      .ok { repo := default_repo, number := digits }
    else
      .error ⟨.provideShapes, .pr⟩

/-- parse_issue_reference of src/qp/utils.py. -/
def parse_issue_reference (reference : PyStr) (default_repo : PyStr) :
    Except ParseErr IssueReference :=
  let value := pyStrip reference
  if value.isEmpty then
    .error ⟨.identifierEmpty, .issue⟩
  else if hasUrlScheme value then
    let segments := urlSegments value
    if 4 ≤ segments.length ∧ (secondToLast segments).getD [] ∈ issueMarkers then
      .ok { repo := List.intercalate ['/'] (segments.take 2),
            number := segments.getLast?.getD [] }
    else
      .error ⟨.urlExtractFailed, .issue⟩
  else if value.contains '#' then
    let parts := splitFirst '#' value
    let repoStripped := pyStrip parts.1
    let repo0 := if repoStripped.isEmpty then default_repo else repoStripped
    let repo := if repo0.contains '/' then repo0 else default_repo
    let number := pyLstrip '#' (pyStrip parts.2)
    if number.isEmpty then
      .error ⟨.missingNumberAfterHash, .issue⟩
    else
      .ok { repo := repo, number := number }
  else
    let digits := pyLstrip '#' value
    if pyIsDigitStr digits then
      .ok { repo := default_repo, number := digits }
    else
      .error ⟨.provideShapes, .issue⟩








/-- A Python runtime value as it can appear as a parameter default in the
template front matter (loaded from YAML): None, bool, int, float, str, list
or dict.  Float payloads are never inspected by the modelled code, so the
constructor carries none. -/
inductive PyValue where
  | none
  | bool (b : Bool)
  | int (n : Int)
  | float
  | str (s : PyStr)
  | list (xs : List PyValue)
  | dict (kvs : List (PyStr × PyValue))

/-- The four primitive option kinds that infer_param_type can return
(the Python types bool, int, float, str). -/
inductive ParamKind where
  | boolean
  | integer
  | float
  | string
deriving DecidableEq, Repr

/-- infer_param_type of src/qp/utils.py: isinstance dispatch, bool before
int because bool is a subclass of int in Python. -/
def infer_param_type : PyValue → ParamKind
  | .bool _ => .boolean
  | .int _ => .integer
  | .float => .float
  | _ => .string

/-- Model of the Python comparison `default_value is None`. -/
def pyValueIsNone : PyValue → Bool
  | .none => true
  | _ => false

/-- Model of the Python comparison `default_value == ""`: only the empty
string compares equal to the empty string. -/
def pyValueEqEmptyStr : PyValue → Bool
  | .str [] => true
  | _ => false

/-- Model of the Python comparison `default_value == []`: only the empty
list compares equal to the empty list (an empty dict or tuple does not). -/
def pyValueEqEmptyList : PyValue → Bool
  | .list [] => true
  | _ => false

/-- The is_required computation of register_prompt_command
(src/qp/cli.py lines 167-170): `annotation is not bool and (default_value is
None or default_value == "" or default_value == [])` with
annotation = infer_param_type default_value. -/
def is_required (default_value : PyValue) : Bool :=
  !(infer_param_type default_value == ParamKind.boolean) &&
    (pyValueIsNone default_value || pyValueEqEmptyStr default_value ||
      pyValueEqEmptyList default_value)

/-- One synthesized command-line option of a leaf command, as built by
register_prompt_command: the binding name (hyphens folded to underscores),
the original metadata name retained through option_aliases, the inferred
annotation, the requiredness flag, the declared default and the help text. -/
structure OptionSpec where
  python_name : PyStr
  original_name : PyStr
  annotation : ParamKind
  required : Bool
  default : PyValue
  help : Option PyStr

/-- The per-parameter body of the loop of register_prompt_command
(src/qp/cli.py lines 155-186). -/
def mk_option (original_name : PyStr) (default_value : PyValue)
    (help_text : Option PyStr) : OptionSpec :=
  { python_name := original_name.map (fun c => if c = '-' then '_' else c)
    original_name := original_name
    annotation := infer_param_type default_value
    required := is_required default_value
    default := default_value
    help := help_text }

/-- The metadata of one prompt file as returned by load_prompt_metadata
(a collaborator doing file input): a description and, per parameter name,
a default value and a help text. -/
structure PromptMeta where
  description : Option PyStr
  params : List (PyStr × PyValue × Option PyStr)

/-- register_prompt_command of src/qp/cli.py, as the leaf command value it
registers on the parent: the command name and the synthesized option list. -/
def register_prompt_command (command_name : PyStr) (meta : PromptMeta) :
    PyStr × List OptionSpec :=
  (command_name, meta.params.map (fun p => mk_option p.1 p.2.1 p.2.2))

/-- One entry of the template corpus filesystem: a file (with the metadata
its front matter holds, since load_prompt_metadata is a collaborator) or a
directory with its entries.  Directory listings are taken in the order the
code iterates them, which is `sorted(directory.iterdir())`; the claims
settled below do not depend on that order. -/
inductive FsEntry where
  | file (name : PyStr) (meta : PromptMeta)
  | dir (name : PyStr) (children : List FsEntry)

/-- A node of the synthesized Typer command tree: a leaf command registered
by register_prompt_command or a command group added for a subdirectory. -/
inductive Cmd where
  | leaf (name : PyStr) (opts : List OptionSpec)
  | group (name : PyStr) (sub : List Cmd)

/-- TEMPLATE_SUFFIX of src/qp/utils.py. -/
def TEMPLATE_SUFFIX : PyStr := ".md.jinja".toList

/-- RESERVED_PROMPTS of src/qp/utils.py. -/
def RESERVED_PROMPTS : List PyStr := ["review".toList]

/-- The derived command name of a template file:
`path.name[: -len(TEMPLATE_SUFFIX)]`. -/
def commandNameOf (name : PyStr) : PyStr :=
  name.take (name.length - TEMPLATE_SUFFIX.length)

mutual

/-- The body of the per-entry loop of build_cli (src/qp/cli.py lines
199-214): the commands this entry attaches to the parent (none or one) and
the has_entries contribution. -/
def build_cli_step : FsEntry → List Cmd × Bool
  | .file name meta =>
      if List.isPrefixOf ['.'] name then ([], false)
      else if TEMPLATE_SUFFIX.isSuffixOf name then
        if commandNameOf name ∈ RESERVED_PROMPTS then ([], false)
        else ([Cmd.leaf (register_prompt_command (commandNameOf name) meta).1
                 (register_prompt_command (commandNameOf name) meta).2], true)
      else ([], false)
  | .dir name children =>
      if List.isPrefixOf ['.'] name then ([], false)
      else
        let sub := build_cli_list children
        if sub.2 then ([Cmd.group name sub.1], true) else ([], false)

/-- The loop of build_cli over a directory listing: all attached commands
and the final has_entries flag. -/
def build_cli_list : List FsEntry → List Cmd × Bool
  | [] => ([], false)
  | e :: rest =>
      let c := build_cli_step e
      let r := build_cli_list rest
      (c.1 ++ r.1, c.2 || r.2)

end

/-- build_cli of src/qp/cli.py on the root: a nonexistent root directory is
modelled as Option.none and yields no entries; an existing root is its
directory listing. -/
def build_cli : Option (List FsEntry) → List Cmd × Bool
  | Option.none => ([], false)
  | Option.some entries => build_cli_list entries

mutual

/-- Whether an entry qualifies, per the spec: a qualifying template file is
not hidden, matches the template-file convention and is not reserved; a
directory qualifies when it is not hidden and has a qualifying descendant. -/
def qualifying : FsEntry → Bool
  | .file name _ =>
      !(List.isPrefixOf ['.'] name) && TEMPLATE_SUFFIX.isSuffixOf name &&
        !(decide (commandNameOf name ∈ RESERVED_PROMPTS))
  | .dir name children =>
      !(List.isPrefixOf ['.'] name) && qualifyingList children

/-- Whether any entry of a listing qualifies. -/
def qualifyingList : List FsEntry → Bool
  | [] => false
  | e :: rest => qualifying e || qualifyingList rest

end

mutual

/-- No empty command group occurs anywhere in this command tree node. -/
def noEmptyGroup : Cmd → Bool
  | .leaf _ _ => true
  | .group _ sub => !sub.isEmpty && noEmptyGroupList sub

/-- No empty command group occurs anywhere below these nodes. -/
def noEmptyGroupList : List Cmd → Bool
  | [] => true
  | c :: cs => noEmptyGroup c && noEmptyGroupList cs

end

/-- SUPPORTED_FORMATS of src/qp/utils.py, listed in the sorted order used by
the error message. -/
def SUPPORTED_FORMATS : List PyStr := ["commonmark".toList, "markdown".toList]

/-- The error messages render_prompt_template can report.  Each constructor
stands for the exact message text of the source:
unsupportedFormat carries the requested format and mentions the supported
set, sorted and comma-joined; promptNotFound carries the prompt name and the
prompts directory; renderFailed carries the template name and the underlying
rendering error; writeFailed carries the destination and the OS error. -/
inductive RenderMsg where
  | unsupportedFormat (fmt : PyStr) (supported : List PyStr)
  | promptNotFound (prompt_name : PyStr) (prompts_dir : PyStr)
  | renderFailed (template_name : PyStr) (cause : PyStr)
  | writeFailed (dest : PyStr) (cause : PyStr)
deriving DecidableEq

/-- The outcome of render_prompt_template: a typer.Exit with an error
message, or the rendered text written to the requested destination
(stdout-with-clipboard for the dash destination, else the named file). -/
inductive RenderResult where
  | exitErr (code : Nat) (msg : RenderMsg)
  | written (dest : PyStr) (text : PyStr)
deriving DecidableEq

/-- render_prompt_template of src/qp/utils.py, with its collaborators passed
as oracles: whether the prompt path exists, the outcome of the Jinja2
rendering (a collaborator treated as a pure map from template text and
context to rendered text or error), and the outcome of the destination
write (ok, or an OS error message). -/
def render_prompt_template (fmt : PyStr) (prompt_name : PyStr)
    (prompts_dir : PyStr) (prompt_exists : Bool)
    (rendering : Except PyStr PyStr) (output : PyStr)
    (write_result : Except PyStr Unit) : RenderResult :=
  if !(SUPPORTED_FORMATS.contains fmt) then
    .exitErr 1 (.unsupportedFormat fmt SUPPORTED_FORMATS)
  else if !prompt_exists then
    .exitErr 1 (.promptNotFound prompt_name prompts_dir)
  else
    match rendering with
    | .error exc => .exitErr 1 (.renderFailed prompt_name exc)
    | .ok rendered =>
        if output = "-".toList then .written output rendered
        else
          match write_result with
          | .ok _ => .written output rendered
          | .error exc => .exitErr 1 (.writeFailed output exc)

/-- The repository selected by the owner/repo#number form, as the spec
words it: the trimmed left part when it contains a slash, else the
fallback repository. -/
def hashRepoOf (v F : PyStr) : PyStr :=
  if (pyStrip (splitFirst '#' v).1).contains '/' then
    pyStrip (splitFirst '#' v).1
  else F

/-- The number selected by the owner/repo#number form: the right part,
trimmed and stripped of leading hash characters. -/
def hashNumberOf (v : PyStr) : PyStr :=
  pyLstrip '#' (pyStrip (splitFirst '#' v).2)

/-- The three accepted input shapes of the spec (PR kind), checked on the
stripped input in the precedence order of the spec: URL form requiring at
least four nonempty path segments with a pull or pulls second-to-last
segment; owner/repo#number form requiring a nonempty number after trimming
and stripping leading hash characters; bare number form requiring decimal
digits after stripping leading hash characters.  Written from the spec
wording, to be compared with parse_pr_reference. -/
def matches_pr_shape (v : PyStr) : Bool :=
  if hasUrlScheme v then
    decide (4 ≤ (urlSegments v).length ∧
      (secondToLast (urlSegments v)).getD [] ∈ pullMarkers)
  else if v.contains '#' then
    !(hashNumberOf v).isEmpty
  else
    pyIsDigitStr (pyLstrip '#' v)

/-! ## General lemmas about the string model -/

theorem dropWhile_eq_self_of_forall {p : Char → Bool} {l : PyStr}
    (h : ∀ c ∈ l, p c = false) : l.dropWhile p = l := by
  cases l with
  | nil => rfl
  | cons a t => simp [List.dropWhile_cons, h a (by simp)]

theorem pyStrip_eq_self {l : PyStr} (h : ∀ c ∈ l, pyIsSpace c = false) :
    pyStrip l = l := by
  unfold pyStrip
  rw [dropWhile_eq_self_of_forall h,
    dropWhile_eq_self_of_forall (fun c hc => h c (List.mem_reverse.mp hc)),
    List.reverse_reverse]

theorem ne_of_isDigit {c d : Char} (h : c.isDigit = true)
    (hd : d.isDigit = false) : c ≠ d := by
  intro he
  subst he
  rw [h] at hd
  exact Bool.noConfusion hd

theorem not_space_of_digit {c : Char} (h : c.isDigit = true) :
    pyIsSpace c = false := by
  simp only [pyIsSpace, Bool.or_eq_false_iff, decide_eq_false_iff_not]
  refine ⟨⟨⟨⟨⟨?_, ?_⟩, ?_⟩, ?_⟩, ?_⟩, ?_⟩ <;>
    exact fun he => absurd (he ▸ h) (by decide)

theorem dropWhile_append_of_forall {p : Char → Bool} {l1 l2 : PyStr}
    (h : ∀ c ∈ l1, p c = true) :
    (l1 ++ l2).dropWhile p = l2.dropWhile p := by
  induction l1 with
  | nil => rfl
  | cons a t ih =>
      simp only [List.cons_append, List.dropWhile_cons, h a (by simp)]
      exact ih (fun c hc => h c (by simp [hc]))

theorem contains_eq_false_of_forall {l : PyStr} {a : Char}
    (h : ∀ c ∈ l, c ≠ a) : l.contains a = false := by
  induction l with
  | nil => rfl
  | cons c t ih =>
      have hne : ¬a = c := fun he => h c (by simp) he.symm
      simp only [List.contains_cons, Bool.or_eq_false_iff]
      exact ⟨by simpa using hne, ih (fun x hx => h x (by simp [hx]))⟩

theorem isPrefixOf_cons_of_ne {a b : Char} {l t : PyStr} (h : a ≠ b) :
    List.isPrefixOf (a :: l) (b :: t) = false := by
  simp [List.isPrefixOf, h]

theorem hasUrlScheme_cons_of_ne {c : Char} {t : PyStr} (h : c ≠ 'h') :
    hasUrlScheme (c :: t) = false := by
  have h7 : "http://".toList = 'h' :: "ttp://".toList := rfl
  have h8 : "https://".toList = 'h' :: "ttps://".toList := rfl
  simp only [hasUrlScheme, h7, h8, Bool.or_eq_false_iff]
  exact ⟨isPrefixOf_cons_of_ne (fun he => h he.symm),
    isPrefixOf_cons_of_ne (fun he => h he.symm)⟩

theorem pyStrip_nil : pyStrip [] = [] := rfl

theorem isEmpty_false_of_contains {v : PyStr} {a : Char}
    (h : v.contains a = true) : v.isEmpty = false := by
  cases v with
  | nil => exact absurd h (by simp)
  | cons c t => rfl

theorem isEmpty_false_of_scheme {v : PyStr} (h : hasUrlScheme v = true) :
    v.isEmpty = false := by
  cases v with
  | nil => exact absurd h (by decide)
  | cons c t => rfl

/-! ## Branch lemmas: how each parser reacts to the shape of the stripped
input.  These follow the if chain of parse_pr_reference /
parse_issue_reference literally; the claims below are all settled through
them. -/

theorem parse_pr_empty {reference : PyStr} (F : PyStr)
    (h : (pyStrip reference).isEmpty = true) :
    parse_pr_reference reference F = .error ⟨.identifierEmpty, .pr⟩ := by
  simp only [parse_pr_reference, h, if_true]

theorem parse_pr_url {reference : PyStr} (F : PyStr)
    (hs : hasUrlScheme (pyStrip reference) = true) :
    parse_pr_reference reference F =
      (if 4 ≤ (urlSegments (pyStrip reference)).length ∧
          (secondToLast (urlSegments (pyStrip reference))).getD [] ∈
            pullMarkers then
        .ok { repo :=
                List.intercalate ['/']
                  ((urlSegments (pyStrip reference)).take 2),
              number := (urlSegments (pyStrip reference)).getLast?.getD [] }
      else .error ⟨.urlExtractFailed, .pr⟩) := by
  simp only [parse_pr_reference, isEmpty_false_of_scheme hs, hs,
    Bool.false_eq_true, if_false, if_true]

theorem parse_pr_hash {reference : PyStr} (F : PyStr)
    (hs : hasUrlScheme (pyStrip reference) = false)
    (hh : (pyStrip reference).contains '#' = true) :
    parse_pr_reference reference F =
      (let parts := splitFirst '#' (pyStrip reference)
       let repoStripped := pyStrip parts.1
       let repo0 := if repoStripped.isEmpty then F else repoStripped
       let repo := if repo0.contains '/' then repo0 else F
       let number := pyLstrip '#' (pyStrip parts.2)
       if number.isEmpty then .error ⟨.missingNumberAfterHash, .pr⟩
       else .ok { repo := repo, number := number }) := by
  simp only [parse_pr_reference, isEmpty_false_of_contains hh, hs, hh,
    Bool.false_eq_true, if_false, if_true]

theorem parse_pr_bare {reference : PyStr} (F : PyStr)
    (hne : (pyStrip reference).isEmpty = false)
    (hs : hasUrlScheme (pyStrip reference) = false)
    (hh : (pyStrip reference).contains '#' = false) :
    parse_pr_reference reference F =
      (if pyIsDigitStr (pyLstrip '#' (pyStrip reference)) then
        .ok { repo := F, number := pyLstrip '#' (pyStrip reference) }
      else .error ⟨.provideShapes, .pr⟩) := by
  simp only [parse_pr_reference, hne, hs, hh, Bool.false_eq_true, if_false]

theorem parse_issue_empty {reference : PyStr} (F : PyStr)
    (h : (pyStrip reference).isEmpty = true) :
    parse_issue_reference reference F = .error ⟨.identifierEmpty, .issue⟩ := by
  simp only [parse_issue_reference, h, if_true]

theorem parse_issue_url {reference : PyStr} (F : PyStr)
    (hs : hasUrlScheme (pyStrip reference) = true) :
    parse_issue_reference reference F =
      (if 4 ≤ (urlSegments (pyStrip reference)).length ∧
          (secondToLast (urlSegments (pyStrip reference))).getD [] ∈
            issueMarkers then
        .ok { repo :=
                List.intercalate ['/']
                  ((urlSegments (pyStrip reference)).take 2),
              number := (urlSegments (pyStrip reference)).getLast?.getD [] }
      else .error ⟨.urlExtractFailed, .issue⟩) := by
  simp only [parse_issue_reference, isEmpty_false_of_scheme hs, hs,
    Bool.false_eq_true, if_false, if_true]

theorem parse_issue_hash {reference : PyStr} (F : PyStr)
    (hs : hasUrlScheme (pyStrip reference) = false)
    (hh : (pyStrip reference).contains '#' = true) :
    parse_issue_reference reference F =
      (let parts := splitFirst '#' (pyStrip reference)
       let repoStripped := pyStrip parts.1
       let repo0 := if repoStripped.isEmpty then F else repoStripped
       let repo := if repo0.contains '/' then repo0 else F
       let number := pyLstrip '#' (pyStrip parts.2)
       if number.isEmpty then .error ⟨.missingNumberAfterHash, .issue⟩
       else .ok { repo := repo, number := number }) := by
  simp only [parse_issue_reference, isEmpty_false_of_contains hh, hs, hh,
    Bool.false_eq_true, if_false, if_true]

theorem parse_issue_bare {reference : PyStr} (F : PyStr)
    (hne : (pyStrip reference).isEmpty = false)
    (hs : hasUrlScheme (pyStrip reference) = false)
    (hh : (pyStrip reference).contains '#' = false) :
    parse_issue_reference reference F =
      (if pyIsDigitStr (pyLstrip '#' (pyStrip reference)) then
        .ok { repo := F, number := pyLstrip '#' (pyStrip reference) }
      else .error ⟨.provideShapes, .issue⟩) := by
  simp only [parse_issue_reference, hne, hs, hh, Bool.false_eq_true, if_false]

/-! ## C1: the bare number form -/

/-- C1: for every fallback repository F and every input that, after
stripping leading hash characters, consists entirely of decimal digits D
(the input is k hash characters followed by the nonempty digit string D),
resolving it as a pull-request reference yields repository F, number D, and
the canonical GitHub pull URL built from F and D. -/
theorem bare_number_resolution (k : Nat) (D F : PyStr)
    (hall : D.all Char.isDigit = true) (hne : D ≠ []) :
    (List.replicate k '#' ++ D).dropWhile (fun c => c = '#') = D ∧
    parse_pr_reference (List.replicate k '#' ++ D) F = .ok ⟨F, D⟩ ∧
    (PullRequestReference.mk F D).url =
      "https://github.com/".toList ++ F ++ "/pull/".toList ++ D := by
  have hdall : ∀ c ∈ D, c.isDigit = true := List.all_eq_true.mp hall
  obtain ⟨dc, dt, hdcons⟩ : ∃ dc dt, D = dc :: dt := by
    cases D with
    | nil => exact absurd rfl hne
    | cons a b => exact ⟨a, b, rfl⟩
  have hdc : dc.isDigit = true := hdall dc (by rw [hdcons]; simp)
  have hdnohash : D.dropWhile (fun c => c = '#') = D :=
    dropWhile_eq_self_of_forall (fun c hc => by
      simp only [decide_eq_false_iff_not]
      exact ne_of_isDigit (hdall c hc) (by decide))
  have hdrop : (List.replicate k '#' ++ D).dropWhile (fun c => c = '#') = D := by
    rw [dropWhile_append_of_forall (fun c hc => by
      simp only [decide_eq_true_eq]
      exact (List.eq_of_mem_replicate hc))]
    exact hdnohash
  refine ⟨hdrop, ?_, rfl⟩
  have hstrip : pyStrip (List.replicate k '#' ++ D) =
      List.replicate k '#' ++ D := by
    refine pyStrip_eq_self (fun c hc => ?_)
    rcases List.mem_append.mp hc with h1 | h2
    · rw [List.eq_of_mem_replicate h1]; decide
    · exact not_space_of_digit (hdall c h2)
  cases k with
  | zero =>
      have href : List.replicate 0 '#' ++ D = D := by simp
      rw [href] at hstrip ⊢
      have hnoscheme : hasUrlScheme (pyStrip D) = false := by
        rw [hstrip, hdcons]
        exact hasUrlScheme_cons_of_ne (ne_of_isDigit hdc (by decide))
      have hnohash : (pyStrip D).contains '#' = false := by
        rw [hstrip]
        exact contains_eq_false_of_forall (fun c hc =>
          ne_of_isDigit (hdall c hc) (by decide))
      have hne2 : (pyStrip D).isEmpty = false := by
        rw [hstrip, hdcons]; rfl
      rw [parse_pr_bare F hne2 hnoscheme hnohash, hstrip]
      have hdigits : pyIsDigitStr (pyLstrip '#' D) = true := by
        show pyIsDigitStr (D.dropWhile (fun c => c = '#')) = true
        rw [hdnohash, hdcons]
        simp only [pyIsDigitStr, List.isEmpty_cons, Bool.not_false,
          Bool.true_and]
        exact hdcons ▸ hall
      rw [if_pos hdigits]
      have hl : pyLstrip '#' D = D := by
        show D.dropWhile (fun c => c = '#') = D
        exact hdnohash
      rw [hl]
  | succ k =>
      have href : List.replicate (k + 1) '#' ++ D =
          '#' :: (List.replicate k '#' ++ D) := by
        rw [List.replicate_succ]; rfl
      rw [href] at hstrip ⊢
      have hnoscheme : hasUrlScheme
          (pyStrip ('#' :: (List.replicate k '#' ++ D))) = false := by
        rw [hstrip]
        exact hasUrlScheme_cons_of_ne (by decide)
      have hhash : (pyStrip ('#' :: (List.replicate k '#' ++ D))).contains
          '#' = true := by
        rw [hstrip]; simp [List.contains_cons]
      have hsplitfirst : splitFirst '#' ('#' :: (List.replicate k '#' ++ D)) =
          ([], List.replicate k '#' ++ D) := by
        simp [splitFirst]
      have hstriptail : pyStrip (List.replicate k '#' ++ D) =
          List.replicate k '#' ++ D := by
        refine pyStrip_eq_self (fun c hc => ?_)
        rcases List.mem_append.mp hc with h1 | h2
        · rw [List.eq_of_mem_replicate h1]; decide
        · exact not_space_of_digit (hdall c h2)
      have hdropk : (List.replicate k '#' ++ D).dropWhile
          (fun c => c = '#') = D := by
        rw [dropWhile_append_of_forall (fun c hc => by
          simp only [decide_eq_true_eq]
          exact List.eq_of_mem_replicate hc)]
        exact hdnohash
      have hlstrip : pyLstrip '#' (List.replicate k '#' ++ D) = D := by
        show (List.replicate k '#' ++ D).dropWhile (fun c => c = '#') = D
        exact hdropk
      have hdne : D.isEmpty = false := by rw [hdcons]; rfl
      rw [parse_pr_hash F hnoscheme hhash]
      simp only [hstrip, hsplitfirst, hstriptail, hlstrip, pyStrip_nil,
        List.isEmpty_nil, if_true, ite_self, hdne, Bool.false_eq_true,
        if_false]

theorem isEmpty_eq_false_of_ne_nil {l : PyStr} (h : l ≠ []) :
    l.isEmpty = false := by
  cases l with
  | nil => exact absurd rfl h
  | cons a t => rfl

/-- The two-step repository computation of the source (empty trimmed left
part falls back, then a left part without a slash falls back) agrees with
the one-step description of the spec. -/
theorem repo_or_default (rs F : PyStr) :
    (if (if rs.isEmpty then F else rs).contains '/' then
       (if rs.isEmpty then F else rs) else F) =
    (if rs.contains '/' then rs else F) := by
  by_cases h : rs.isEmpty = true
  · have hnil : rs = [] := by
      cases rs with
      | nil => rfl
      | cons a t => exact absurd h (by simp)
    subst hnil
    simp [ite_self]
  · have h2 : rs.isEmpty = false := by
      cases hb : rs.isEmpty with
      | true => exact absurd hb h
      | false => rfl
    simp [h2]

/-- acme/widgets#45 resolves as a PR reference independently of the
fallback repository. -/
theorem hash_concrete_pr (G : PyStr) :
    parse_pr_reference ("acme/widgets#45".toList) G =
      .ok ⟨"acme/widgets".toList, "45".toList⟩ := by
  rw [parse_pr_hash G (by decide) (by decide)]
  simp only [
    show pyStrip ("acme/widgets#45".toList) = "acme/widgets#45".toList from
      by decide,
    show splitFirst '#' ("acme/widgets#45".toList) =
      ("acme/widgets".toList, "45".toList) from by decide,
    show pyStrip ("acme/widgets".toList) = "acme/widgets".toList from
      by decide,
    show pyStrip ("45".toList) = "45".toList from by decide,
    show pyLstrip '#' ("45".toList) = "45".toList from by decide,
    show ("45".toList : PyStr).isEmpty = false from by decide,
    show ("acme/widgets".toList : PyStr).isEmpty = false from by decide,
    show ("acme/widgets".toList : PyStr).contains '/' = true from by decide,
    Bool.false_eq_true, if_false, if_true]

/-- acme/widgets#45 resolves as an issue reference independently of the
fallback repository. -/
theorem hash_concrete_issue (G : PyStr) :
    parse_issue_reference ("acme/widgets#45".toList) G =
      .ok ⟨"acme/widgets".toList, "45".toList⟩ := by
  rw [parse_issue_hash G (by decide) (by decide)]
  simp only [
    show pyStrip ("acme/widgets#45".toList) = "acme/widgets#45".toList from
      by decide,
    show splitFirst '#' ("acme/widgets#45".toList) =
      ("acme/widgets".toList, "45".toList) from by decide,
    show pyStrip ("acme/widgets".toList) = "acme/widgets".toList from
      by decide,
    show pyStrip ("45".toList) = "45".toList from by decide,
    show pyLstrip '#' ("45".toList) = "45".toList from by decide,
    show ("45".toList : PyStr).isEmpty = false from by decide,
    show ("acme/widgets".toList : PyStr).isEmpty = false from by decide,
    show ("acme/widgets".toList : PyStr).contains '/' = true from by decide,
    Bool.false_eq_true, if_false, if_true]

/-! ## C2: the owner/repo#number form -/

/-- C2: for every non-URL input containing a hash character, both resolvers
split once on the first hash; the trimmed left part becomes the repository
when it contains a slash, otherwise the fallback repository is substituted;
the right part, trimmed and stripped of leading hash characters, becomes
the number; an empty number after stripping fails with the
missing-number-after-hash InvalidReference.  In particular
acme/widgets#45 resolves to repository acme/widgets and number 45
regardless of the fallback repository. -/
theorem hash_form_resolution (reference F : PyStr)
    (hs : hasUrlScheme (pyStrip reference) = false)
    (hh : (pyStrip reference).contains '#' = true) :
    (hashNumberOf (pyStrip reference) = [] →
      parse_pr_reference reference F =
        .error ⟨.missingNumberAfterHash, .pr⟩ ∧
      parse_issue_reference reference F =
        .error ⟨.missingNumberAfterHash, .issue⟩) ∧
    (hashNumberOf (pyStrip reference) ≠ [] →
      parse_pr_reference reference F =
        .ok ⟨hashRepoOf (pyStrip reference) F,
             hashNumberOf (pyStrip reference)⟩ ∧
      parse_issue_reference reference F =
        .ok ⟨hashRepoOf (pyStrip reference) F,
             hashNumberOf (pyStrip reference)⟩) ∧
    parse_pr_reference ("acme/widgets#45".toList) F =
      .ok ⟨"acme/widgets".toList, "45".toList⟩ ∧
    parse_issue_reference ("acme/widgets#45".toList) F =
      .ok ⟨"acme/widgets".toList, "45".toList⟩ := by
  have hpr := parse_pr_hash F hs hh
  have his := parse_issue_hash F hs hh
  refine ⟨fun hnum => ?_, fun hnum => ?_, hash_concrete_pr F,
    hash_concrete_issue F⟩
  · simp only [hashNumberOf] at hnum
    have he : (pyLstrip '#'
        (pyStrip (splitFirst '#' (pyStrip reference)).2)).isEmpty = true := by
      rw [hnum]; rfl
    constructor
    · rw [hpr]; simp only [he, if_true]
    · rw [his]; simp only [he, if_true]
  · simp only [hashNumberOf] at hnum
    have he : (pyLstrip '#'
        (pyStrip (splitFirst '#' (pyStrip reference)).2)).isEmpty = false :=
      isEmpty_eq_false_of_ne_nil hnum
    constructor
    · rw [hpr]
      simp only [he, Bool.false_eq_true, if_false, hashRepoOf, hashNumberOf]
      rw [repo_or_default]
    · rw [his]
      simp only [he, Bool.false_eq_true, if_false, hashRepoOf, hashNumberOf]
      rw [repo_or_default]

/-- Witness for C2 at the concrete input of the spec: acme/widgets#45
resolves to repository acme/widgets and number 45 under an unrelated
fallback repository, for both kinds. -/
theorem hash_form_resolution_witness :
    parse_pr_reference ("acme/widgets#45".toList) ("x/y".toList) =
      .ok ⟨"acme/widgets".toList, "45".toList⟩ ∧
    parse_issue_reference ("acme/widgets#45".toList) ("x/y".toList) =
      .ok ⟨"acme/widgets".toList, "45".toList⟩ := by
  have h := hash_form_resolution ("acme/widgets#45".toList) ("x/y".toList)
    (by decide) (by decide)
  exact ⟨h.2.2.1, h.2.2.2⟩

/-- Witness for C1 at the concrete input of the spec: resolving 123 with
fallback acme/widgets yields repository acme/widgets, number 123 and the
canonical pull URL. -/
theorem bare_number_resolution_witness :
    parse_pr_reference ("123".toList) ("acme/widgets".toList) =
      .ok ⟨"acme/widgets".toList, "123".toList⟩ ∧
    (PullRequestReference.mk ("acme/widgets".toList) ("123".toList)).url =
      "https://github.com/acme/widgets/pull/123".toList := by
  have h := bare_number_resolution 0 ("123".toList) ("acme/widgets".toList)
    (by decide) (by decide)
  exact ⟨by simpa using h.2.1, by decide⟩

/-! ## C3: the URL form -/

/-- C3: for every input whose stripped form starts with an http or https
scheme marker, resolution succeeds exactly when the URL path has at least
four nonempty segments and the second-to-last is the kind-appropriate
marker, yielding the first two segments joined by a slash as the repository
and the last segment as the number; every other scheme-prefixed input fails
with the URL-specific InvalidReference and is never resolved through the
hash or bare-number shapes.  In particular the GitHub pull URL for
acme/widgets number 99 resolves to repository acme/widgets and number 99. -/
theorem url_form_resolution (reference F : PyStr)
    (hs : hasUrlScheme (pyStrip reference) = true) :
    (4 ≤ (urlSegments (pyStrip reference)).length ∧
        (secondToLast (urlSegments (pyStrip reference))).getD [] ∈
          pullMarkers →
      parse_pr_reference reference F =
        .ok ⟨List.intercalate ['/'] ((urlSegments (pyStrip reference)).take 2),
             (urlSegments (pyStrip reference)).getLast?.getD []⟩) ∧
    (¬(4 ≤ (urlSegments (pyStrip reference)).length ∧
        (secondToLast (urlSegments (pyStrip reference))).getD [] ∈
          pullMarkers) →
      parse_pr_reference reference F = .error ⟨.urlExtractFailed, .pr⟩) ∧
    (4 ≤ (urlSegments (pyStrip reference)).length ∧
        (secondToLast (urlSegments (pyStrip reference))).getD [] ∈
          issueMarkers →
      parse_issue_reference reference F =
        .ok ⟨List.intercalate ['/'] ((urlSegments (pyStrip reference)).take 2),
             (urlSegments (pyStrip reference)).getLast?.getD []⟩) ∧
    (¬(4 ≤ (urlSegments (pyStrip reference)).length ∧
        (secondToLast (urlSegments (pyStrip reference))).getD [] ∈
          issueMarkers) →
      parse_issue_reference reference F = .error ⟨.urlExtractFailed, .issue⟩) ∧
    parse_pr_reference ("https://github.com/acme/widgets/pull/99".toList) F =
      .ok ⟨"acme/widgets".toList, "99".toList⟩ := by
  refine ⟨fun h => ?_, fun h => ?_, fun h => ?_, fun h => ?_, ?_⟩
  · rw [parse_pr_url F hs, if_pos h]
  · rw [parse_pr_url F hs, if_neg h]
  · rw [parse_issue_url F hs, if_pos h]
  · rw [parse_issue_url F hs, if_neg h]
  · rw [parse_pr_url F (by decide)]
    decide

/-- Witness for C3 at the concrete input of the spec: the GitHub pull URL
for acme/widgets number 99 resolves to repository acme/widgets, number 99,
under a concrete fallback repository. -/
theorem url_form_resolution_witness :
    parse_pr_reference ("https://github.com/acme/widgets/pull/99".toList)
      ("x/y".toList) = .ok ⟨"acme/widgets".toList, "99".toList⟩ := by
  have h := url_form_resolution
    ("https://github.com/acme/widgets/pull/99".toList) ("x/y".toList)
    (by decide)
  exact h.2.2.2.2

/-! ## C10: the URL host is never inspected -/

/-- C10: for scheme-prefixed inputs the resolvers depend only on the path
segments, never on the host: two scheme-prefixed inputs with equal segment
lists resolve identically, and a qualifying path on a non-GitHub host such
as example.com resolves successfully. -/
theorem url_host_irrelevant :
    (∀ r1 r2 F : PyStr, hasUrlScheme (pyStrip r1) = true →
      hasUrlScheme (pyStrip r2) = true →
      urlSegments (pyStrip r1) = urlSegments (pyStrip r2) →
      parse_pr_reference r1 F = parse_pr_reference r2 F ∧
      parse_issue_reference r1 F = parse_issue_reference r2 F) ∧
    ∀ F : PyStr,
      parse_pr_reference ("https://example.com/acme/widgets/pull/5".toList)
        F = .ok ⟨"acme/widgets".toList, "5".toList⟩ := by
  constructor
  · intro r1 r2 F h1 h2 hseg
    constructor
    · rw [parse_pr_url F h1, parse_pr_url F h2, hseg]
    · rw [parse_issue_url F h1, parse_issue_url F h2, hseg]
  · intro F
    rw [parse_pr_url F (by decide)]
    decide

/-- Witness for C10: the GitHub URL and the example.com URL with the same
path resolve identically, and the example.com URL resolves to
acme/widgets number 5 under a concrete fallback repository. -/
theorem url_host_irrelevant_witness :
    parse_pr_reference ("https://github.com/acme/widgets/pull/5".toList)
        ("x/y".toList) =
      parse_pr_reference ("https://example.com/acme/widgets/pull/5".toList)
        ("x/y".toList) ∧
    parse_pr_reference ("https://example.com/acme/widgets/pull/5".toList)
      ("x/y".toList) = .ok ⟨"acme/widgets".toList, "5".toList⟩ := by
  refine ⟨?_, url_host_irrelevant.2 ("x/y".toList)⟩
  exact (url_host_irrelevant.1
    ("https://github.com/acme/widgets/pull/5".toList)
    ("https://example.com/acme/widgets/pull/5".toList)
    ("x/y".toList) (by decide) (by decide) (by decide)).1

/-! ## C4: the InvalidReference taxonomy -/

theorem bool_false_of_not_true {b : Bool} (h : ¬b = true) : b = false := by
  cases b with
  | true => exact absurd rfl h
  | false => rfl

theorem nil_of_isEmpty {α : Type} {l : List α} (h : l.isEmpty = true) :
    l = [] := by
  cases l with
  | nil => rfl
  | cons a t => exact absurd h (by simp)

theorem ne_nil_of_isEmpty_false {α : Type} {l : List α}
    (h : l.isEmpty = false) : l ≠ [] := by
  intro he
  rw [he] at h
  exact absurd h (by simp)

theorem matches_pr_shape_nil : matches_pr_shape [] = false := by decide

theorem parse_pr_ok_iff (reference F : PyStr) :
    (∃ r, parse_pr_reference reference F = .ok r) ↔
      matches_pr_shape (pyStrip reference) = true := by
  by_cases hemp : (pyStrip reference).isEmpty = true
  · rw [parse_pr_empty F hemp, nil_of_isEmpty hemp]
    simp [matches_pr_shape_nil]
  · have hemp2 : (pyStrip reference).isEmpty = false := bool_false_of_not_true hemp
    by_cases hs : hasUrlScheme (pyStrip reference) = true
    · rw [parse_pr_url F hs]
      simp only [matches_pr_shape, hs, if_true]
      by_cases hcond : 4 ≤ (urlSegments (pyStrip reference)).length ∧
          (secondToLast (urlSegments (pyStrip reference))).getD [] ∈
            pullMarkers
      · simp [if_pos hcond, hcond]
      · simp [if_neg hcond, hcond]
    · have hs2 : hasUrlScheme (pyStrip reference) = false :=
        bool_false_of_not_true hs
      by_cases hh : (pyStrip reference).contains '#' = true
      · rw [parse_pr_hash F hs2 hh]
        simp only [matches_pr_shape, hs2, hh, Bool.false_eq_true, if_false,
          if_true, hashNumberOf]
        by_cases hn : (pyLstrip '#'
            (pyStrip (splitFirst '#' (pyStrip reference)).2)).isEmpty = true
        · simp [hn]
        · simp [bool_false_of_not_true hn]
      · have hh2 : (pyStrip reference).contains '#' = false :=
          bool_false_of_not_true hh
        rw [parse_pr_bare F hemp2 hs2 hh2]
        simp only [matches_pr_shape, hs2, hh2, Bool.false_eq_true, if_false]
        by_cases hd : pyIsDigitStr (pyLstrip '#' (pyStrip reference)) = true
        · simp [hd]
        · simp [bool_false_of_not_true hd]

theorem parse_pr_catchall_iff (reference F : PyStr) :
    parse_pr_reference reference F = .error ⟨.provideShapes, .pr⟩ ↔
      ((pyStrip reference).isEmpty = false ∧
        hasUrlScheme (pyStrip reference) = false ∧
        (pyStrip reference).contains '#' = false ∧
        pyIsDigitStr (pyLstrip '#' (pyStrip reference)) = false) := by
  by_cases hemp : (pyStrip reference).isEmpty = true
  · rw [parse_pr_empty F hemp]
    simp [hemp]
  · have hemp2 : (pyStrip reference).isEmpty = false :=
      bool_false_of_not_true hemp
    by_cases hs : hasUrlScheme (pyStrip reference) = true
    · rw [parse_pr_url F hs]
      by_cases hcond : 4 ≤ (urlSegments (pyStrip reference)).length ∧
          (secondToLast (urlSegments (pyStrip reference))).getD [] ∈
            pullMarkers
      · simp [if_pos hcond, hs]
      · simp [if_neg hcond, hs]
    · have hs2 : hasUrlScheme (pyStrip reference) = false :=
        bool_false_of_not_true hs
      by_cases hh : (pyStrip reference).contains '#' = true
      · rw [parse_pr_hash F hs2 hh]
        by_cases hn : (pyLstrip '#'
            (pyStrip (splitFirst '#' (pyStrip reference)).2)).isEmpty = true
        · simp only [hn, if_true]
          simp
          intro _ _ hnot
          exact absurd (by simpa using hh) hnot
        · simp only [bool_false_of_not_true hn, Bool.false_eq_true, if_false]
          simp
          intro _ _ hnot
          exact absurd (by simpa using hh) hnot
      · have hh2 : (pyStrip reference).contains '#' = false :=
          bool_false_of_not_true hh
        rw [parse_pr_bare F hemp2 hs2 hh2]
        by_cases hd : pyIsDigitStr (pyLstrip '#' (pyStrip reference)) = true
        · simp [hd, hemp2, hs2, hh2]
        · simp only [bool_false_of_not_true hd, Bool.false_eq_true, if_false]
          simp [bool_false_of_not_true hd, hemp2, hs2]
          exact fun hmem => absurd hmem (by simpa using hh2)

/-- C4 counterexample: the empty input matches none of the three accepted
shapes and does fail with InvalidReference, but the message it carries is
the identifier-cannot-be-empty message, not the message that enumerates the
three accepted shapes with an example — refuting the claim that every
non-matching input carries the enumerating message. -/
theorem invalid_reference_counterexample :
    matches_pr_shape (pyStrip []) = false ∧
    parse_pr_reference [] ("acme/widgets".toList) =
      .error ⟨.identifierEmpty, .pr⟩ ∧
    BadParamMsg.identifierEmpty ≠ BadParamMsg.provideShapes := by decide

/-- C4 amended: resolution returns a Reference exactly for the inputs
matching one of the three accepted shapes and fails with InvalidReference
for every other input; the message that enumerates the three shapes with an
example is carried exactly when the stripped input is nonempty, not
scheme-prefixed, free of hash characters and not composed of digits after
stripping leading hashes; the empty input fails with the
identifier-cannot-be-empty message instead. -/
theorem invalid_reference_amended (reference F : PyStr) :
    ((∃ r, parse_pr_reference reference F = .ok r) ↔
      matches_pr_shape (pyStrip reference) = true) ∧
    (parse_pr_reference reference F = .error ⟨.provideShapes, .pr⟩ ↔
      ((pyStrip reference).isEmpty = false ∧
        hasUrlScheme (pyStrip reference) = false ∧
        (pyStrip reference).contains '#' = false ∧
        pyIsDigitStr (pyLstrip '#' (pyStrip reference)) = false)) ∧
    parse_pr_reference [] F = .error ⟨.identifierEmpty, .pr⟩ :=
  ⟨parse_pr_ok_iff reference F, parse_pr_catchall_iff reference F,
    parse_pr_empty F rfl⟩

/-- Witness for C4 amended at the empty input: it fails with the
identifier-cannot-be-empty InvalidReference and matches no accepted shape. -/
theorem invalid_reference_amended_witness :
    parse_pr_reference [] ("acme/widgets".toList) =
      .error ⟨.identifierEmpty, .pr⟩ ∧
    matches_pr_shape (pyStrip []) = false :=
  ⟨(invalid_reference_amended [] ("acme/widgets".toList)).2.2, by decide⟩

/-! ## C5: digit validation of the number field -/

theorem urlSegments_last_ne_nil {v : PyStr}
    (h4 : 4 ≤ (urlSegments v).length) :
    (urlSegments v).getLast?.getD [] ≠ [] := by
  have hne : urlSegments v ≠ [] := by
    intro he
    rw [he] at h4
    simp at h4
  obtain ⟨x, hx⟩ : ∃ x, (urlSegments v).getLast? = some x := by
    cases hl : (urlSegments v).getLast? with
    | none => exact absurd (List.getLast?_eq_none_iff.mp hl) hne
    | some x => exact ⟨x, rfl⟩
  have hmem : x ∈ urlSegments v := List.mem_of_getLast?_eq_some hx
  have hfil : x ∈ (splitAll '/' (pyStripChar '/' (urlPath v))).filter
      (fun seg => !seg.isEmpty) := by
    simpa [urlSegments] using hmem
  have hx2 := (List.mem_filter.mp hfil).2
  rw [hx]
  simp only [Option.getD_some]
  exact ne_nil_of_isEmpty_false (by simpa using hx2)

/-- C5 counterexample: the owner/repo#number shape performs no digit
validation — acme/widgets#abc is accepted with the non-numeric number abc,
refuting the claim that the number of every returned Reference is validated
to be composed of decimal digits for all three shapes. -/
theorem number_digits_counterexample :
    parse_pr_reference ("acme/widgets#abc".toList) ("d/r".toList) =
      .ok ⟨"acme/widgets".toList, "abc".toList⟩ ∧
    ("abc".toList).all Char.isDigit = false := by decide

/-- C5 amended: the number of every Reference returned by either resolver
is nonempty, and it is validated to be composed of decimal digits only for
the bare number shape (stripped input without a scheme marker and without a
hash character); the hash and URL shapes accept any nonempty number. -/
theorem number_digits_amended :
    (∀ reference F r, parse_pr_reference reference F = .ok r →
      r.number ≠ [] ∧
      (hasUrlScheme (pyStrip reference) = false →
        (pyStrip reference).contains '#' = false →
        r.number.all Char.isDigit = true)) ∧
    (∀ reference F r, parse_issue_reference reference F = .ok r →
      r.number ≠ [] ∧
      (hasUrlScheme (pyStrip reference) = false →
        (pyStrip reference).contains '#' = false →
        r.number.all Char.isDigit = true)) := by
  constructor
  · intro reference F r h
    by_cases hemp : (pyStrip reference).isEmpty = true
    · rw [parse_pr_empty F hemp] at h
      exact absurd h (by simp)
    · have hemp2 : (pyStrip reference).isEmpty = false :=
        bool_false_of_not_true hemp
      by_cases hs : hasUrlScheme (pyStrip reference) = true
      · rw [parse_pr_url F hs] at h
        by_cases hcond : 4 ≤ (urlSegments (pyStrip reference)).length ∧
            (secondToLast (urlSegments (pyStrip reference))).getD [] ∈
              pullMarkers
        · rw [if_pos hcond] at h
          injection h with h2
          subst h2
          refine ⟨urlSegments_last_ne_nil hcond.1, fun hs0 _ => ?_⟩
          rw [hs] at hs0
          exact Bool.noConfusion hs0
        · rw [if_neg hcond] at h
          exact absurd h (by simp)
      · have hs2 : hasUrlScheme (pyStrip reference) = false :=
          bool_false_of_not_true hs
        by_cases hh : (pyStrip reference).contains '#' = true
        · rw [parse_pr_hash F hs2 hh] at h
          by_cases hn : (pyLstrip '#'
              (pyStrip (splitFirst '#' (pyStrip reference)).2)).isEmpty = true
          · rw [if_pos hn] at h
            exact absurd h (by simp)
          · rw [if_neg hn] at h
            injection h with h2
            subst h2
            refine ⟨ne_nil_of_isEmpty_false
              (bool_false_of_not_true hn), fun _ hh0 => ?_⟩
            rw [hh] at hh0
            exact Bool.noConfusion hh0
        · have hh2 : (pyStrip reference).contains '#' = false :=
            bool_false_of_not_true hh
          rw [parse_pr_bare F hemp2 hs2 hh2] at h
          by_cases hd : pyIsDigitStr (pyLstrip '#' (pyStrip reference)) = true
          · rw [if_pos hd] at h
            injection h with h2
            subst h2
            have hd2 := hd
            simp only [pyIsDigitStr, Bool.and_eq_true] at hd2
            refine ⟨ne_nil_of_isEmpty_false ?_, fun _ _ => hd2.2⟩
            cases he : (pyLstrip '#' (pyStrip reference)).isEmpty with
            | false => rfl
            | true =>
                rw [he] at hd2
                exact absurd hd2.1 (by simp)
          · rw [if_neg hd] at h
            exact absurd h (by simp)
  · intro reference F r h
    by_cases hemp : (pyStrip reference).isEmpty = true
    · rw [parse_issue_empty F hemp] at h
      exact absurd h (by simp)
    · have hemp2 : (pyStrip reference).isEmpty = false :=
        bool_false_of_not_true hemp
      by_cases hs : hasUrlScheme (pyStrip reference) = true
      · rw [parse_issue_url F hs] at h
        by_cases hcond : 4 ≤ (urlSegments (pyStrip reference)).length ∧
            (secondToLast (urlSegments (pyStrip reference))).getD [] ∈
              issueMarkers
        · rw [if_pos hcond] at h
          injection h with h2
          subst h2
          refine ⟨urlSegments_last_ne_nil hcond.1, fun hs0 _ => ?_⟩
          rw [hs] at hs0
          exact Bool.noConfusion hs0
        · rw [if_neg hcond] at h
          exact absurd h (by simp)
      · have hs2 : hasUrlScheme (pyStrip reference) = false :=
          bool_false_of_not_true hs
        by_cases hh : (pyStrip reference).contains '#' = true
        · rw [parse_issue_hash F hs2 hh] at h
          by_cases hn : (pyLstrip '#'
              (pyStrip (splitFirst '#' (pyStrip reference)).2)).isEmpty = true
          · rw [if_pos hn] at h
            exact absurd h (by simp)
          · rw [if_neg hn] at h
            injection h with h2
            subst h2
            refine ⟨ne_nil_of_isEmpty_false
              (bool_false_of_not_true hn), fun _ hh0 => ?_⟩
            rw [hh] at hh0
            exact Bool.noConfusion hh0
        · have hh2 : (pyStrip reference).contains '#' = false :=
            bool_false_of_not_true hh
          rw [parse_issue_bare F hemp2 hs2 hh2] at h
          by_cases hd : pyIsDigitStr (pyLstrip '#' (pyStrip reference)) = true
          · rw [if_pos hd] at h
            injection h with h2
            subst h2
            have hd2 := hd
            simp only [pyIsDigitStr, Bool.and_eq_true] at hd2
            refine ⟨ne_nil_of_isEmpty_false ?_, fun _ _ => hd2.2⟩
            cases he : (pyLstrip '#' (pyStrip reference)).isEmpty with
            | false => rfl
            | true =>
                rw [he] at hd2
                exact absurd hd2.1 (by simp)
          · rw [if_neg hd] at h
            exact absurd h (by simp)

/-- Witness for C5 amended at a concrete input: the bare input 123 yields a
nonempty, all-digit number. -/
theorem number_digits_amended_witness :
    ("123".toList : PyStr) ≠ [] ∧ ("123".toList).all Char.isDigit = true := by
  have h := number_digits_amended.1 ("123".toList) ("a/b".toList)
    ⟨"a/b".toList, "123".toList⟩ (by decide)
  exact ⟨h.1, h.2 (by decide) (by decide)⟩

/-! ## C6: parameter schema inference -/

/-- C6: inference maps a boolean default to the boolean kind, an integer
default to integer, a float default to float and everything else to string;
a boolean-kind parameter is never required; a non-boolean parameter is
required exactly when its raw default is None (which also stands for an
absent default), the empty string or the empty list; in particular a
default of false gives boolean and not required, and a default of the
empty string gives string and required. -/
theorem infer_and_required_spec :
    (∀ b, infer_param_type (.bool b) = .boolean) ∧
    (∀ n, infer_param_type (.int n) = .integer) ∧
    infer_param_type .float = .float ∧
    (∀ v : PyValue, (∀ b, v ≠ .bool b) → (∀ n, v ≠ .int n) → v ≠ .float →
      infer_param_type v = .string) ∧
    (∀ v : PyValue, infer_param_type v = .boolean → is_required v = false) ∧
    (∀ v : PyValue, infer_param_type v ≠ .boolean →
      (is_required v = true ↔ (v = .none ∨ v = .str [] ∨ v = .list []))) ∧
    infer_param_type (.bool false) = .boolean ∧
    is_required (.bool false) = false ∧
    infer_param_type (.str []) = .string ∧
    is_required (.str []) = true := by
  refine ⟨fun b => rfl, fun n => rfl, rfl, ?_, ?_, ?_, rfl, rfl, rfl, rfl⟩
  · intro v hb hn hf
    cases v with
    | bool b => exact absurd rfl (hb b)
    | int n => exact absurd rfl (hn n)
    | float => exact absurd rfl hf
    | none => rfl
    | str s => rfl
    | list xs => rfl
    | dict kvs => rfl
  · intro v hbool
    cases v with
    | bool b => rfl
    | int n => exact absurd hbool (by simp [infer_param_type])
    | float => exact absurd hbool (by simp [infer_param_type])
    | none => exact absurd hbool (by simp [infer_param_type])
    | str s => exact absurd hbool (by simp [infer_param_type])
    | list xs => exact absurd hbool (by simp [infer_param_type])
    | dict kvs => exact absurd hbool (by simp [infer_param_type])
  · intro v hnb
    cases v with
    | bool b => exact absurd rfl hnb
    | none => simp [show is_required PyValue.none = true from rfl]
    | int n => simp [show is_required (PyValue.int n) = false from rfl]
    | float => simp [show is_required PyValue.float = false from rfl]
    | str s =>
        cases s with
        | nil => simp [show is_required (PyValue.str []) = true from rfl]
        | cons c t =>
            simp [show is_required (PyValue.str (c :: t)) = false from rfl]
    | list xs =>
        cases xs with
        | nil => simp [show is_required (PyValue.list []) = true from rfl]
        | cons x t =>
            simp [show is_required (PyValue.list (x :: t)) = false from rfl]
    | dict kvs => simp [show is_required (PyValue.dict kvs) = false from rfl]

/-- Witness for C6 at the concrete defaults of the spec: the empty string
default is required (via the amended-free requiredness characterization)
and false is a non-required boolean. -/
theorem infer_and_required_spec_witness :
    is_required (PyValue.str []) = true ∧
    is_required (PyValue.bool false) = false := by
  refine ⟨?_, ?_⟩
  · exact (infer_and_required_spec.2.2.2.2.2.1 (PyValue.str [])
      (by decide)).mpr (Or.inr (Or.inl rfl))
  · exact infer_and_required_spec.2.2.2.2.1 (PyValue.bool false) rfl

/-! ## C7 and C8: the command tree synthesizer -/

mutual

theorem step_snd_eq (e : FsEntry) : (build_cli_step e).2 = qualifying e := by
  cases e with
  | file name meta =>
      by_cases h1 : List.isPrefixOf ['.'] name = true
      · simp [build_cli_step, qualifying, h1]
      · have h1f := bool_false_of_not_true h1
        by_cases h2 : TEMPLATE_SUFFIX.isSuffixOf name = true
        · by_cases h3 : commandNameOf name ∈ RESERVED_PROMPTS
          · simp [build_cli_step, qualifying, h1f, h2, h3]
          · simp [build_cli_step, qualifying, h1f, h2, h3]
        · simp [build_cli_step, qualifying, h1f, bool_false_of_not_true h2]
  | dir name children =>
      by_cases h1 : List.isPrefixOf ['.'] name = true
      · simp [build_cli_step, qualifying, h1]
      · have hrec := list_snd_eq children
        by_cases h2 : (build_cli_list children).2 = true
        · simp [build_cli_step, qualifying, bool_false_of_not_true h1, h2,
            hrec.symm.trans h2]
        · have h2f := bool_false_of_not_true h2
          simp [build_cli_step, qualifying, bool_false_of_not_true h1, h2f,
            hrec.symm.trans h2f]

theorem list_snd_eq (l : List FsEntry) :
    (build_cli_list l).2 = qualifyingList l := by
  cases l with
  | nil => rfl
  | cons e rest =>
      simp only [build_cli_list, qualifyingList]
      rw [step_snd_eq e, list_snd_eq rest]

end

theorem step_fst_empty (e : FsEntry) :
    (build_cli_step e).1.isEmpty = !(build_cli_step e).2 := by
  cases e with
  | file name meta =>
      by_cases h1 : List.isPrefixOf ['.'] name = true
      · simp [build_cli_step, h1]
      · have h1f := bool_false_of_not_true h1
        by_cases h2 : TEMPLATE_SUFFIX.isSuffixOf name = true
        · by_cases h3 : commandNameOf name ∈ RESERVED_PROMPTS
          · simp [build_cli_step, h1f, h2, h3]
          · simp [build_cli_step, h1f, h2, h3]
        · simp [build_cli_step, h1f, bool_false_of_not_true h2]
  | dir name children =>
      by_cases h1 : List.isPrefixOf ['.'] name = true
      · simp [build_cli_step, h1]
      · by_cases h2 : (build_cli_list children).2 = true
        · simp [build_cli_step, bool_false_of_not_true h1, h2]
        · simp [build_cli_step, bool_false_of_not_true h1,
            bool_false_of_not_true h2]

theorem isEmpty_append {α : Type} (a b : List α) :
    (a ++ b).isEmpty = (a.isEmpty && b.isEmpty) := by
  cases a with
  | nil => simp [List.isEmpty]
  | cons x t => simp [List.isEmpty]

theorem list_fst_empty (l : List FsEntry) :
    (build_cli_list l).1.isEmpty = !(build_cli_list l).2 := by
  induction l with
  | nil => rfl
  | cons e rest ih =>
      simp only [build_cli_list, isEmpty_append, Bool.not_or]
      rw [step_fst_empty e, ih]

theorem noEmptyGroupList_append (a b : List Cmd) :
    noEmptyGroupList (a ++ b) = (noEmptyGroupList a && noEmptyGroupList b) := by
  induction a with
  | nil => simp [noEmptyGroupList]
  | cons c t ih =>
      simp only [List.cons_append, noEmptyGroupList, List.append_eq, ih,
        Bool.and_assoc]

mutual

theorem step_noEmpty (e : FsEntry) :
    noEmptyGroupList (build_cli_step e).1 = true := by
  cases e with
  | file name meta =>
      by_cases h1 : List.isPrefixOf ['.'] name = true
      · simp [build_cli_step, h1, noEmptyGroupList]
      · have h1f := bool_false_of_not_true h1
        by_cases h2 : TEMPLATE_SUFFIX.isSuffixOf name = true
        · by_cases h3 : commandNameOf name ∈ RESERVED_PROMPTS
          · simp [build_cli_step, h1f, h2, h3, noEmptyGroupList]
          · simp [build_cli_step, h1f, h2, h3, noEmptyGroupList,
              noEmptyGroup]
        · simp [build_cli_step, h1f, bool_false_of_not_true h2,
            noEmptyGroupList]
  | dir name children =>
      by_cases h1 : List.isPrefixOf ['.'] name = true
      · simp [build_cli_step, h1, noEmptyGroupList]
      · by_cases h2 : (build_cli_list children).2 = true
        · have hsub : (build_cli_list children).1.isEmpty = false := by
            rw [list_fst_empty, h2]
            rfl
          have hrec := list_noEmpty children
          simp [build_cli_step, bool_false_of_not_true h1, h2,
            noEmptyGroupList, noEmptyGroup, hsub, hrec]
        · simp [build_cli_step, bool_false_of_not_true h1,
            bool_false_of_not_true h2, noEmptyGroupList]

theorem list_noEmpty (l : List FsEntry) :
    noEmptyGroupList (build_cli_list l).1 = true := by
  cases l with
  | nil => rfl
  | cons e rest =>
      simp only [build_cli_list, noEmptyGroupList_append]
      rw [step_noEmpty e, list_noEmpty rest]
      rfl

end

/-- C7: a root in which no template file qualifies at any depth (all
hidden, non-matching or reserved) synthesizes nothing: the builder attaches
no commands and no groups and reports no entries; a nonexistent root is not
an error and yields no entries; and no empty command group is ever attached
at any level of the synthesized tree. -/
theorem empty_corpus_spec :
    build_cli Option.none = ([], false) ∧
    (∀ entries : List FsEntry, qualifyingList entries = false →
      build_cli (Option.some entries) = ([], false)) ∧
    (∀ entries : List FsEntry,
      noEmptyGroupList (build_cli (Option.some entries)).1 = true) := by
  refine ⟨rfl, ?_, ?_⟩
  · intro entries h
    have h2 : (build_cli_list entries).2 = false := by
      rw [list_snd_eq]
      exact h
    have h1 : (build_cli_list entries).1 = [] := by
      refine nil_of_isEmpty ?_
      rw [list_fst_empty, h2]
      rfl
    show build_cli_list entries = ([], false)
    rw [← h1, ← h2]
  · intro entries
    exact list_noEmpty entries

/-- Witness for C7: a concrete corpus containing a non-template file, a
hidden directory with a template inside, a directory with no templates and
a reserved template file has no qualifying entry and synthesizes the empty
tree. -/
theorem empty_corpus_spec_witness :
    qualifyingList
      [FsEntry.file ("readme.md".toList) ⟨Option.none, []⟩,
       FsEntry.dir (".hidden".toList)
         [FsEntry.file ("a.md.jinja".toList) ⟨Option.none, []⟩],
       FsEntry.dir ("sub".toList)
         [FsEntry.file ("notes.txt".toList) ⟨Option.none, []⟩],
       FsEntry.file ("review.md.jinja".toList) ⟨Option.none, []⟩] = false ∧
    build_cli (Option.some
      [FsEntry.file ("readme.md".toList) ⟨Option.none, []⟩,
       FsEntry.dir (".hidden".toList)
         [FsEntry.file ("a.md.jinja".toList) ⟨Option.none, []⟩],
       FsEntry.dir ("sub".toList)
         [FsEntry.file ("notes.txt".toList) ⟨Option.none, []⟩],
       FsEntry.file ("review.md.jinja".toList) ⟨Option.none, []⟩]) =
      ([], false) := by
  refine ⟨by decide, ?_⟩
  exact empty_corpus_spec.2.1 _ (by decide)

/-- C8: a template file whose derived command name is reserved contributes
nothing to the synthesized tree, regardless of its metadata: processing it
leaves the result of the listing unchanged, and it does not qualify. -/
theorem reserved_file_skipped (name : PyStr) (meta : PromptMeta)
    (rest : List FsEntry)
    (hsuf : TEMPLATE_SUFFIX.isSuffixOf name = true)
    (hres : commandNameOf name ∈ RESERVED_PROMPTS) :
    build_cli_list (FsEntry.file name meta :: rest) = build_cli_list rest ∧
    qualifying (FsEntry.file name meta) = false := by
  have hstep : build_cli_step (FsEntry.file name meta) = ([], false) := by
    by_cases h1 : List.isPrefixOf ['.'] name = true
    · simp [build_cli_step, h1]
    · simp [build_cli_step, bool_false_of_not_true h1, hsuf, hres]
  constructor
  · simp only [build_cli_list, hstep]
    simp
  · by_cases h1 : List.isPrefixOf ['.'] name = true
    · simp [qualifying, h1]
    · simp [qualifying, bool_false_of_not_true h1, hsuf, hres]

/-- Witness for C8: the reserved template file review.md.jinja contributes
nothing when processed and does not qualify. -/
theorem reserved_file_skipped_witness :
    build_cli_list
        [FsEntry.file ("review.md.jinja".toList) ⟨Option.none, []⟩] =
      build_cli_list [] ∧
    qualifying (FsEntry.file ("review.md.jinja".toList) ⟨Option.none, []⟩) =
      false :=
  reserved_file_skipped ("review.md.jinja".toList) ⟨Option.none, []⟩ []
    (by decide) (by decide)

/-! ## C9: the unsupported format gate -/

/-- C9: a requested output format outside the supported set makes
render_prompt_template exit with code 1 carrying the unsupported-format
message (which names the requested format and the supported choices,
comma-joined in sorted order), whatever the collaborators would have done:
the outcome is the same error for every prompt-existence state, every
rendering outcome and every destination-write outcome, so no rendering is
attempted and no output is produced.  In particular pdf is not in the
supported set. -/
theorem unsupported_format_spec (fmt prompt_name prompts_dir output : PyStr)
    (hf : SUPPORTED_FORMATS.contains fmt = false) :
    (∀ (prompt_exists : Bool) (rendering : Except PyStr PyStr)
        (write_result : Except PyStr Unit),
      render_prompt_template fmt prompt_name prompts_dir prompt_exists
          rendering output write_result =
        .exitErr 1 (.unsupportedFormat fmt SUPPORTED_FORMATS)) ∧
    SUPPORTED_FORMATS.contains ("pdf".toList) = false := by
  refine ⟨?_, by decide⟩
  intro pe rnd wr
  simp [render_prompt_template, hf]
  intro hmem
  exact absurd hmem (by simpa using hf)

/-- Witness for C9 at the concrete format of the spec: requesting pdf exits
with code 1 and the unsupported-format message even though the prompt
exists, rendering would succeed and the destination is writable. -/
theorem unsupported_format_spec_witness :
    render_prompt_template ("pdf".toList) ("review.md.jinja".toList)
        ("templates".toList) true (.ok ("text".toList)) ("-".toList)
        (.ok ()) =
      .exitErr 1 (.unsupportedFormat ("pdf".toList) SUPPORTED_FORMATS) :=
  (unsupported_format_spec ("pdf".toList) ("review.md.jinja".toList)
    ("templates".toList) ("-".toList) (by decide)).1 true
    (.ok ("text".toList)) (.ok ())
